import Mathlib

/-!
Verification of `doc/build.py`, the documentation-build helper of the
`interval_dict` repository.  The script is a sequential orchestrator: it
provisions a virtualenv, installs Sphinx/Breathe via pip, pipes a Doxygen
configuration to `doxygen -`, invokes `sphinx-build`, and finally runs the
`lessc` stylesheet compiler.  We embed the script shallowly: external tools
are modelled by an environment recording their results, and each function
returns its outcome together with the trace of the commands it invoked.
-/

namespace BuildPy

/-! ### POSIX path primitives used by the script

These translate `os.path.basename`, `posixpath.join`, `posixpath.normpath`
and `posixpath.abspath` (the script runs `os.path` operations; we model the
POSIX variants).  Strings are Lean `String`s; a path is absolute exactly
when it starts with a slash. -/

/-- Python `path.startswith("/")`: the first character is a slash. -/
def isabs (p : String) : Bool := p.data.head? == some '/'

/-- Python `path.endswith("/")`: the last character is a slash. -/
def endsWithSlash (p : String) : Bool := p.data.getLast? == some '/'

/-- `posixpath.join(a, b)`: if `b` is absolute it wins; otherwise it is
appended to `a`, inserting a slash unless `a` is empty or already ends in
one. -/
def pathJoin (a b : String) : String :=
  if isabs b then b
  else if a = "" ∨ endsWithSlash a then a ++ b
  else a ++ "/" ++ b

/-- Python `path.split("/")` on the character list of the path: the
components between slashes, empty components kept (so a leading, trailing
or doubled slash contributes an empty component, as in `str.split`). -/
def splitSlash : List Char → List (List Char)
  | [] => [[]]
  | c :: cs =>
    if c = '/' then [] :: splitSlash cs
    else
      match splitSlash cs with
      | [] => [[c]]
      | h :: t => (c :: h) :: t

/-- Number of leading slashes kept by `posixpath.normpath`: 2 when the path
starts with exactly two slashes (POSIX special case), otherwise 1 when it
starts with a slash, otherwise 0. -/
def initialSlashes (p : String) : Nat :=
  if p.data.take 2 = ['/', '/'] ∧ ¬ p.data.take 3 = ['/', '/', '/'] then 2
  else if p.data.head? = some '/' then 1
  else 0

/-- One step of the component scan in `posixpath.normpath`: empty and `.`
components are dropped, `..` pops the previous component unless the path is
relative and empty so far, or the previous component is itself a `..`. -/
def normStep (hasSlash : Bool) (acc : List String) (comp : String) : List String :=
  if comp = "" ∨ comp = "." then acc
  else if ¬ comp = ".." ∨ (¬ hasSlash ∧ acc = []) ∨ (¬ acc = [] ∧ acc.getLast? = some "..") then
    acc ++ [comp]
  else
    acc.dropLast

/-- A run of `n` slashes, as prepended by `normpath`. -/
def slashes : Nat → String
  | 0 => ""
  | n + 1 => "/" ++ slashes n

/-- `posixpath.normpath`: split on slashes, scan components with
`normStep`, re-join, restore the leading slashes, and return `.` for the
empty result. -/
def normpath (p : String) : String :=
  if p = "" then "."
  else
    let k := initialSlashes p
    let comps := (splitSlash p.data).map String.mk
    let newComps := comps.foldl (normStep (¬ k = 0)) []
    let res := slashes k ++ String.intercalate "/" newComps
    if res = "" then "." else res

/-- `posixpath.abspath` relative to the current working directory `cwd`:
non-absolute paths are joined onto `cwd`, then the result is normalised. -/
def abspath (cwd p : String) : String :=
  normpath (if isabs p then p else pathJoin cwd p)

/-- `os.path.basename`: the part after the last slash. -/
def basename (p : String) : String := String.mk ((splitSlash p.data).getLastD [])

/-! ### Version ordering

`pip_install` compares versions with `distutils.version.LooseVersion`.  For
dot-separated numeric version strings (the only kind occurring in the
script and in the claims) `LooseVersion` comparison is exactly the Python
list comparison of the lists of numeric components, which we model as
lexicographic comparison of `List Nat`. -/

/-- Python list comparison `a <= b` on numeric components. -/
def verLE : List Nat → List Nat → Bool
  | [], _ => true
  | _ :: _, [] => false
  | a :: as, b :: bs => if a < b then true else if b < a then false else verLE as bs

/-- `LooseVersion(a) >= LooseVersion(b)`. -/
def verGE (a b : List Nat) : Bool := verLE b a

/-- `LooseVersion(a) < LooseVersion(b)` (strict, total order). -/
def verLT (a b : List Nat) : Bool := ¬ verGE a b

/-! ### The module constant `versions` -/

/-- `versions = ['0.1.0']` at the top of `build.py`. -/
def versions : List String := ["0.1.0"]

/-! ### `pip_install`

```python
def pip_install(package, commit=None, **kwargs):
  min_version = kwargs.get('min_version')
  if min_version:
    from pkg_resources import get_distribution, DistributionNotFound
    try:
      installed_version = get_distribution(os.path.basename(package)).version
      if LooseVersion(installed_version) >= min_version:
        print(... 'already installed' ...)
        return
    except DistributionNotFound:
      pass
  if commit:
    package = 'git+https://github.com/\x7b0\x7d.git@\x7b1\x7d'.format(package, commit)
  print('Installing ...')
  check_call(['pip', 'install', package])
```

The installed distributions are modelled by a map from distribution base
name to its installed version, `None` meaning `DistributionNotFound`.
`min_version` is `Option (List Nat)`: a supplied dot-separated version
string is non-empty, hence truthy, so `if min_version:` is `isSome`.
`commit` keeps string truthiness: `None` and the empty string are falsy.
The result is `none` when installation is skipped, otherwise the `pip`
command that is executed. -/
def pip_install (dist : String → Option (List Nat)) (package : String)
    (commit : Option String) (min_version : Option (List Nat)) :
    Option (List String) :=
  let skip :=
    match min_version with
    | none => false
    | some mv =>
      match dist (basename package) with
      | none => false
      | some iv => verGE iv mv
  if skip then none
  else
    let package :=
      match commit with
      | none => package
      | some c =>
        if c = "" then package
        else "git+https://github.com/" ++ package ++ ".git@" ++ c
    some ["pip", "install", package]

/-! ### `create_build_env`

```python
def create_build_env(dirname='virtualenv'):
  if not os.path.exists(dirname):
    check_call(['virtualenv', dirname])
  ... activate_this.py is executed (process-local activation, no command) ...
  pip_version = get_distribution('pip').version
  if LooseVersion(pip_version) < LooseVersion('1.5.4'):
    check_call(['pip', 'install', '--upgrade', 'pip'])
  try:
    distribute_version = get_distribution('distribute').version
    if LooseVersion(distribute_version) <= LooseVersion('0.6.24'):
      check_call(['pip', 'install', '--upgrade', 'distribute'])
  except DistributionNotFound:
    pass
  pip_install('breathe', None, min_version="4.15.0")
  pip_install('sphinx', None, min_version="3.1.0")
```

The provisioning environment records whether the virtualenv directory
exists, the installed pip version, the installed distribute version (absent
is allowed), and the distribution map that `pip_install` consults.  The
activation-script execution has no observable effect in our trace model.
The function returns the trace of commands it runs. -/
structure ProvisionEnv where
  dirExists : Bool
  pipVersion : List Nat
  distributeVersion : Option (List Nat)
  dist : String → Option (List Nat)

def create_build_env (e : ProvisionEnv) (dirname : String := "virtualenv") :
    List (List String) :=
  (if ¬ e.dirExists then [["virtualenv", dirname]] else []) ++
  (if verLT e.pipVersion [1, 5, 4] then [["pip", "install", "--upgrade", "pip"]] else []) ++
  (match e.distributeVersion with
   | some dv => if verLE dv [0, 6, 24] then [["pip", "install", "--upgrade", "distribute"]] else []
   | none => []) ++
  ((pip_install e.dist "breathe" none (some [4, 15, 0])).toList) ++
  ((pip_install e.dist "sphinx" none (some [3, 1, 0])).toList)

/-! ### `build_docs` -/

/-- Result of trying to launch the `lessc` subprocess: either it ran and
exited with a code, or the OS failed to launch it with an `errno`. -/
inductive LaunchResult where
  | ran (rc : Int)
  | failedToLaunch (eno : Nat)
  deriving DecidableEq, Repr

/-- `errno.ENOENT`. -/
def ENOENT : Nat := 2

/-- The external world as `build_docs` observes it: the process working
directory (used by `os.path.abspath`), the directory of the script itself
(`os.path.dirname(os.path.realpath(__file__))`, the default `doc_dir`),
and the results of the three subprocess steps. -/
structure Env where
  cwd : String
  scriptDir : String
  doxygenRC : Int
  sphinxRC : Int
  lessc : LaunchResult

/-- How a call of `build_docs` ends: a normal `return html_dir`, a raised
`CalledProcessError` (non-zero exit of a tool), a re-raised `OSError`, or
`sys.exit(1)` after printing a message. -/
inductive Outcome where
  | ret (html_dir : String)
  | calledProcessError (cmd : List String) (rc : Int)
  | osError (eno : Nat)
  | exited (msg : String) (status : Nat)
  deriving DecidableEq, Repr

/-- Python `versions[-3:]`: the last (at most) three elements. -/
def lastN (n : Nat) (l : List String) : List String := l.drop (l.length - n)

/-- `main_versions = reversed(versions[-3:])` in `build_docs`. -/
def main_versions (versions : List String) : List String := (lastN 3 versions).reverse

/-- The message printed when `lessc` is absent. -/
def lesscHint : String :=
  "lessc not found; make sure that Less (http://lesscss.org/) " ++ "is installed"

/-- The `sphinx-build` command constructed in `build_docs`.  Note that the
executable is the literal string `"sphinx-build"`, not the
`sphinx_executable` parameter. -/
def sphinxCmd (env : Env) (versions : List String) (version doc_dir work_dir : String) :
    List String :=
  ["sphinx-build",
   "-Dbreathe_projects.format=" ++ abspath env.cwd (pathJoin doc_dir "doxyxml"),
   "-Dversion=" ++ version, "-Drelease=" ++ version,
   "-Aversion=" ++ version,
   "-Aversions=" ++ String.intercalate "," (main_versions versions),
   "-b", "html", doc_dir, pathJoin work_dir "html"]

/-- The `lessc` command constructed in `build_docs`. -/
def lesscCmd (doc_dir html_dir : String) : List String :=
  ["lessc", "--clean-css",
   "--include-path=" ++ pathJoin doc_dir "bootstrap",
   pathJoin doc_dir "interval_dict.less",
   pathJoin (pathJoin html_dir "_static") "interval_dict.css"]

/-- `build_docs(sphinx_executable='sphinx-build', version='dev', **kwargs)`.

The three `kwargs` are the optional overrides `doc_dir`, `work_dir` and
`include_dir` with their source defaults.  The Doxygen configuration text
piped to `doxygen -` (a constant template instantiated with `include_dir`
and the doxyxml directory) is not modelled: no claim concerns its content,
only the invocation of `doxygen` itself.  The result is the outcome paired
with the trace of subprocess commands, in invocation order:

* `Popen(['doxygen', '-'])` runs first; a non-zero `returncode` raises
  `CalledProcessError(returncode, cmd)` before anything else runs;
* `check_call(["sphinx-build", ...])` runs next; non-zero raises;
* `check_call(['lessc', ...])` runs last inside `try/except OSError`:
  a launch failure with `errno == ENOENT` prints a hint and calls
  `sys.exit(1)`, any other `OSError` is re-raised, and a non-zero exit
  raises `CalledProcessError` (not an `OSError`, hence not caught);
* otherwise the function returns `html_dir = os.path.join(work_dir, 'html')`. -/
def build_docs (env : Env) (versions : List String)
    (sphinx_executable : String := "sphinx-build") (version : String := "dev")
    (doc_dir_opt : Option String := none) (work_dir_opt : Option String := none)
    (include_dir_opt : Option String := none) :
    Outcome × List (List String) :=
  let doc_dir := doc_dir_opt.getD env.scriptDir
  let work_dir := work_dir_opt.getD "."
  let _include_dir := include_dir_opt.getD
    (pathJoin (pathJoin (pathJoin doc_dir "..") "include") "interval_dict")
  let doxygenCmd := ["doxygen", "-"]
  if ¬ env.doxygenRC = 0 then
    (.calledProcessError doxygenCmd env.doxygenRC, [doxygenCmd])
  else
    let html_dir := pathJoin work_dir "html"
    let sphinx := sphinxCmd env versions version doc_dir work_dir
    if ¬ env.sphinxRC = 0 then
      (.calledProcessError sphinx env.sphinxRC, [doxygenCmd, sphinx])
    else
      let lessc := lesscCmd doc_dir html_dir
      match env.lessc with
      | .ran rc =>
        if ¬ rc = 0 then (.calledProcessError lessc rc, [doxygenCmd, sphinx, lessc])
        else (.ret html_dir, [doxygenCmd, sphinx, lessc])
      | .failedToLaunch eno =>
        if ¬ eno = ENOENT then (.osError eno, [doxygenCmd, sphinx, lessc])
        else (.exited lesscHint 1, [doxygenCmd, sphinx, lessc])

/-! ### The entry point

```python
if __name__ == '__main__':
  create_build_env()
  build_docs(sys.argv[1], sys.argv[2])
```

`sys.argv[1]` becomes `sphinx_executable` and `sys.argv[2]` becomes
`version`; all other `build_docs` inputs keep their defaults. -/
def mainEntry (pe : ProvisionEnv) (env : Env) (versions : List String)
    (argv1 argv2 : String) : List (List String) × Outcome × List (List String) :=
  let provisionTrace := create_build_env pe "virtualenv"
  let r := build_docs env versions argv1 argv2 none none none
  (provisionTrace, r.1, r.2)

/-! ### Module state for the mutation claim

The module-level global `versions` is only ever read (`versions[-3:]` in
`build_docs`); no function assigns to it or calls a mutating method on it.
We make that explicit by threading a module state through each of the three
operations and recording the state each one leaves behind. -/
structure ModuleState where
  versions : List String
  deriving DecidableEq, Repr

/-- The operations of the module, with the inputs each one takes. -/
inductive Op where
  | pipInstall (dist : String → Option (List Nat)) (package : String)
      (commit : Option String) (min_version : Option (List Nat))
  | createBuildEnv (e : ProvisionEnv) (dirname : String)
  | buildDocs (env : Env) (sphinx_executable version : String)
      (doc_dir_opt work_dir_opt include_dir_opt : Option String)

/-- Running one operation on the module state: each operation performs its
effect (computed by the corresponding function) and leaves the state it
found; `build_docs` reads `st.versions`, none of the three writes it. -/
def runOp (st : ModuleState) : Op → ModuleState
  | .pipInstall dist package commit min_version =>
    let _ := pip_install dist package commit min_version
    st
  | .createBuildEnv e dirname =>
    let _ := create_build_env e dirname
    st
  | .buildDocs env se ver d w i =>
    let _ := build_docs env st.versions se ver d w i
    st

/-- Running a sequence of operations. -/
def runOps (st : ModuleState) (ops : List Op) : ModuleState := ops.foldl runOp st

/-! ## Lemmas about the path primitives -/

theorem isabs_eq (p : String) : isabs p = true ↔ p.data.head? = some '/' := by
  simp [isabs]

theorem ne_empty_of_isabs (p : String) (h : isabs p = true) : ¬ p = "" := by
  intro he
  rw [he] at h
  exact absurd h (by decide)

theorem isabs_append_left (a b : String) (h : isabs a = true) : isabs (a ++ b) = true := by
  rw [isabs_eq] at h ⊢
  rw [String.data_append]
  cases ha : a.data with
  | nil => rw [ha] at h; exact absurd h (by simp)
  | cons c cs =>
    rw [ha] at h
    simp at h
    simp [h]

theorem initialSlashes_pos (p : String) (h : isabs p = true) : 0 < initialSlashes p := by
  rw [isabs_eq] at h
  unfold initialSlashes
  split_ifs <;> omega

theorem isabs_ite_slashes (n : Nat) (j : String) :
    isabs (if slashes (n + 1) ++ j = "" then "." else slashes (n + 1) ++ j) = true := by
  have habs : isabs (slashes (n + 1) ++ j) = true :=
    isabs_append_left ("/" ++ slashes n) j (isabs_append_left "/" (slashes n) (by decide))
  rw [if_neg (ne_empty_of_isabs _ habs)]
  exact habs

theorem isabs_normpath (p : String) (h : isabs p = true) : isabs (normpath p) = true := by
  have hk : 0 < initialSlashes p := initialSlashes_pos p h
  obtain ⟨n, hn⟩ : ∃ n, initialSlashes p = n + 1 := ⟨initialSlashes p - 1, by omega⟩
  unfold normpath
  rw [if_neg (ne_empty_of_isabs p h)]
  dsimp only
  rw [hn]
  exact isabs_ite_slashes n _

theorem isabs_pathJoin (a b : String) (h : isabs a = true) : isabs (pathJoin a b) = true := by
  unfold pathJoin
  split_ifs with h1 h2
  · exact h1
  · exact isabs_append_left a b h
  · exact isabs_append_left (a ++ "/") b (isabs_append_left a "/" h)

theorem isabs_abspath (cwd p : String) (h : isabs cwd = true) :
    isabs (abspath cwd p) = true := by
  unfold abspath
  split_ifs with h1
  · exact isabs_normpath p h1
  · exact isabs_normpath _ (isabs_pathJoin cwd p h)

/-! ## The claims -/

/-- Claim C3: with a minimum-version constraint, `pip_install` skips
installation (returns no command) exactly when an installed distribution of
the base name of the package exists whose version is greater-or-equal to
the constraint under dot-separated version ordering; with no constraint it
always installs.  The last two conjuncts check the ordering on the examples
named by the claim: installed 4.15.0 satisfies constraint 4.15.0, while
4.14.9 does not. -/
theorem pip_install_skip_iff (dist : String → Option (List Nat)) (pkg : String)
    (commit : Option String) (mv : List Nat) :
    ((pip_install dist pkg commit (some mv) = none ↔
        ∃ iv, dist (basename pkg) = some iv ∧ verGE iv mv = true) ∧
      (pip_install dist pkg commit none).isSome = true) ∧
    verGE [4, 15, 0] [4, 15, 0] = true ∧ verGE [4, 14, 9] [4, 15, 0] = false := by
  refine ⟨⟨?_, ?_⟩, by decide, by decide⟩
  · unfold pip_install
    cases hd : dist (basename pkg) with
    | none => simp [hd]
    | some iv =>
      cases hge : verGE iv mv with
      | false => simp [hd, hge]
      | true => simp [hd, hge]
  · unfold pip_install
    simp

/-- Claim C7: when a (non-empty) version-control reference is supplied and
the installation is not skipped, the identifier handed to `pip install` is
exactly `git+https://github.com/` + package + `.git@` + reference.  (The
empty string is not a reference: Python string truthiness makes
`if commit:` treat it as absent.) -/
theorem pip_install_commit_form (dist : String → Option (List Nat)) (pkg c : String)
    (mv : Option (List Nat)) (cmd : List String) (hc : ¬ c = "")
    (h : pip_install dist pkg (some c) mv = some cmd) :
    cmd = ["pip", "install", "git+https://github.com/" ++ pkg ++ ".git@" ++ c] := by
  unfold pip_install at h
  simp only [hc, if_false, ite_false] at h
  split at h
  · exact absurd h (by simp)
  · exact (Option.some.inj h).symm

/-- Witness for C7: installing `breathe` at reference `abc123` with nothing
installed produces exactly the git identifier. -/
theorem pip_install_commit_form_witness :
    (¬ "abc123" = "" ∧
      pip_install (fun _ => none) "breathe" (some "abc123") none =
        some ["pip", "install", "git+https://github.com/breathe.git@abc123"]) ∧
    ["pip", "install", "git+https://github.com/breathe.git@abc123"] =
      ["pip", "install", "git+https://github.com/" ++ "breathe" ++ ".git@" ++ "abc123"] :=
  ⟨⟨by decide, by rfl⟩,
    pip_install_commit_form (fun _ => none) "breathe" "abc123" none
      ["pip", "install", "git+https://github.com/breathe.git@abc123"]
      (by decide) (by rfl)⟩

/-- Claim C1 (code bug evidence): invoked through the entry point with the
rendering-tool path `/opt/custom-sphinx` as first argument, the render step
still executes the literal `sphinx-build`: the `sphinx_executable`
parameter that `__main__` fills from `sys.argv[1]` is never used by
`build_docs`, whose `check_call` hard-codes the executable name. -/
theorem render_step_ignores_rendering_tool_argument :
    (mainEntry ⟨true, [21, 0], none, fun _ => none⟩
        ⟨"/cwd", "/repo/doc", 0, 0, .ran 0⟩ ["0.1.0"] "/opt/custom-sphinx" "1.2.3").2.2[1]? =
      some ["sphinx-build", "-Dbreathe_projects.format=/repo/doc/doxyxml",
        "-Dversion=1.2.3", "-Drelease=1.2.3", "-Aversion=1.2.3",
        "-Aversions=0.1.0", "-b", "html", "/repo/doc", "./html"] ∧
    ¬ "sphinx-build" = "/opt/custom-sphinx" := by
  exact ⟨by rfl, by decide⟩

/-- Claim C2, counterexample: with known-versions list
`["0.1.0", "0.2.0"]` (oldest first), the version-picker list passed to the
renderer is `["0.2.0", "0.1.0"]`, which is not the last-three suffix in its
original oldest-to-newest order: the claimed ascending presentation fails. -/
theorem main_versions_not_ascending :
    main_versions ["0.1.0", "0.2.0"] = ["0.2.0", "0.1.0"] ∧
    ¬ main_versions ["0.1.0", "0.2.0"] = ["0.1.0", "0.2.0"] := by
  decide

/-- Claim C2, amended: for every state of the known-versions list, the
version-picker list passed to the renderer contains at most 3 entries and
consists of the last (at most) three entries of the known-versions list
presented newest-to-oldest, i.e. in the reverse of their order in the
list. -/
theorem main_versions_reversed_suffix (versions : List String) :
    main_versions versions = (lastN 3 versions).reverse ∧
    (main_versions versions).length ≤ 3 ∧
    (main_versions versions).reverse <:+ versions := by
  refine ⟨rfl, ?_, ?_⟩
  · simp only [main_versions, lastN, List.length_reverse, List.length_drop]
    omega
  · simp only [main_versions, List.reverse_reverse, lastN]
    exact List.drop_suffix _ _

/-- Claim C4: in the styling step, when launching `lessc` fails at the OS
level, an `errno` equal to `ENOENT` makes `build_docs` print the
`lessc not found` hint and terminate the whole program with exit status 1,
the previously run render step remaining in the trace (its `html` output is
never deleted); any other `errno` is re-raised unchanged as the same
`OSError`. -/
theorem build_docs_lessc_launch_failure (env : Env) (versions : List String)
    (se ver : String) (d w i : Option String) (eno : Nat)
    (h1 : env.doxygenRC = 0) (h2 : env.sphinxRC = 0)
    (h3 : env.lessc = .failedToLaunch eno) :
    (eno = ENOENT →
      (build_docs env versions se ver d w i).1 = .exited lesscHint 1 ∧
      sphinxCmd env versions ver (d.getD env.scriptDir) (w.getD ".") ∈
        (build_docs env versions se ver d w i).2) ∧
    (¬ eno = ENOENT → (build_docs env versions se ver d w i).1 = .osError eno) := by
  constructor
  · intro he
    unfold build_docs
    simp [h1, h2, h3, he]
  · intro he
    unfold build_docs
    simp [h1, h2, h3, he]

/-- Witness for C4: a run where doxygen and sphinx succeed and `lessc`
fails to launch with `errno = 2 = ENOENT` ends in `sys.exit(1)` after the
hint, with the render command still in the trace. -/
theorem build_docs_lessc_launch_failure_witness :
    (build_docs ⟨"/cwd", "/repo/doc", 0, 0, .failedToLaunch 2⟩ ["0.1.0"]
        "sphinx-build" "dev" none none none).1 = .exited lesscHint 1 ∧
    sphinxCmd ⟨"/cwd", "/repo/doc", 0, 0, .failedToLaunch 2⟩ ["0.1.0"] "dev" "/repo/doc" "." ∈
      (build_docs ⟨"/cwd", "/repo/doc", 0, 0, .failedToLaunch 2⟩ ["0.1.0"]
        "sphinx-build" "dev" none none none).2 :=
  (build_docs_lessc_launch_failure ⟨"/cwd", "/repo/doc", 0, 0, .failedToLaunch 2⟩
    ["0.1.0"] "sphinx-build" "dev" none none none 2 rfl rfl rfl).1 rfl

/-- Claim C5: whenever the extraction tool exits non-zero, `build_docs`
raises `CalledProcessError` for the doxygen command, the trace stops at
`doxygen -`, and no invoked command is `sphinx-build`: the renderer is
never invoked. -/
theorem doxygen_failure_blocks_renderer (env : Env) (versions : List String)
    (se ver : String) (d w i : Option String) (h : ¬ env.doxygenRC = 0) :
    (build_docs env versions se ver d w i).1 =
      .calledProcessError ["doxygen", "-"] env.doxygenRC ∧
    (build_docs env versions se ver d w i).2 = [["doxygen", "-"]] ∧
    ∀ cmd ∈ (build_docs env versions se ver d w i).2, ¬ cmd.head? = some "sphinx-build" := by
  unfold build_docs
  simp [h]

/-- Witness for C5: with the extraction tool exiting 1, the only command in
the trace is `doxygen -` and the outcome is the raised error. -/
theorem doxygen_failure_blocks_renderer_witness :
    (build_docs ⟨"/cwd", "/repo/doc", 1, 0, .ran 0⟩ ["0.1.0"]
        "sphinx-build" "dev" none none none).1 = .calledProcessError ["doxygen", "-"] 1 ∧
    (build_docs ⟨"/cwd", "/repo/doc", 1, 0, .ran 0⟩ ["0.1.0"]
        "sphinx-build" "dev" none none none).2 = [["doxygen", "-"]] ∧
    ∀ cmd ∈ (build_docs ⟨"/cwd", "/repo/doc", 1, 0, .ran 0⟩ ["0.1.0"]
        "sphinx-build" "dev" none none none).2, ¬ cmd.head? = some "sphinx-build" :=
  doxygen_failure_blocks_renderer ⟨"/cwd", "/repo/doc", 1, 0, .ran 0⟩ ["0.1.0"]
    "sphinx-build" "dev" none none none (by decide)

/-- Claim C6, counterexample: a fully successful run with the default
working directory returns `./html`, which is a relative path, not the
absolute path the claim promises. -/
theorem default_work_dir_returns_relative_path :
    (build_docs ⟨"/cwd", "/repo/doc", 0, 0, .ran 0⟩ ["0.1.0"]
        "sphinx-build" "dev" none none none).1 = .ret "./html" ∧
    isabs "./html" = false := by
  decide

/-- Claim C6, amended: on the success branch `build_docs` returns
`os.path.join(work_dir, 'html')`; this path is absolute when the working
directory is given as an absolute path, while the default working directory
`.` yields the relative `./html`. -/
theorem build_docs_success_returns_joined_path (env : Env) (versions : List String)
    (se ver : String) (d w i : Option String)
    (h1 : env.doxygenRC = 0) (h2 : env.sphinxRC = 0) (h3 : env.lessc = .ran 0) :
    (build_docs env versions se ver d w i).1 = .ret (pathJoin (w.getD ".") "html") ∧
    (isabs (w.getD ".") = true → isabs (pathJoin (w.getD ".") "html") = true) := by
  constructor
  · unfold build_docs
    simp [h1, h2, h3]
  · intro hw
    exact isabs_pathJoin _ _ hw

/-- Witness for the amended C6: a successful run with working directory
`/out` returns `pathJoin "/out" "html"`, an absolute path. -/
theorem build_docs_success_returns_joined_path_witness :
    (build_docs ⟨"/cwd", "/repo/doc", 0, 0, .ran 0⟩ ["0.1.0"]
        "sphinx-build" "dev" none (some "/out") none).1 = .ret (pathJoin "/out" "html") ∧
    (isabs "/out" = true → isabs (pathJoin "/out" "html") = true) :=
  build_docs_success_returns_joined_path ⟨"/cwd", "/repo/doc", 0, 0, .ran 0⟩ ["0.1.0"]
    "sphinx-build" "dev" none (some "/out") none rfl rfl rfl

/-- Claim C8: with the known-versions list `versions = ["0.1.0"]` and
current version `dev`, the renderer is invoked with `-Dversion=dev`,
`-Drelease=dev` and the other-versions display string `0.1.0`
(`-Aversions=0.1.0`). -/
theorem render_receives_dev_and_010 :
    versions = ["0.1.0"] ∧
    String.intercalate "," (main_versions versions) = "0.1.0" ∧
    (build_docs ⟨"/cwd", "/repo/doc", 0, 0, .ran 0⟩ versions
        "sphinx-build" "dev" none none none).2[1]? =
      some ["sphinx-build", "-Dbreathe_projects.format=/repo/doc/doxyxml",
        "-Dversion=dev", "-Drelease=dev", "-Aversion=dev", "-Aversions=0.1.0",
        "-b", "html", "/repo/doc", "./html"] := by
  decide

/-- Claim C9: no operation of the module writes the module-level
known-versions list: running any sequence of `pip_install`,
`create_build_env` and `build_docs` operations leaves `versions` equal to
its initial value. -/
theorem versions_never_mutated (st : ModuleState) (ops : List Op) :
    (runOps st ops).versions = st.versions := by
  induction ops generalizing st with
  | nil => rfl
  | cons op ops ih =>
    have h : runOp st op = st := by cases op <;> rfl
    unfold runOps
    rw [List.foldl_cons, h]
    exact ih st

/-- Claim C10: the bridge-format source handed to the renderer is the
doxyxml directory made absolute with `os.path.abspath`; as long as the
process working directory is absolute (as `os.getcwd` guarantees), that
argument is an absolute path even when `doc_dir` is a relative override. -/
theorem breathe_source_always_absolute (env : Env) (versions : List String)
    (ver doc_dir work_dir : String) (h : isabs env.cwd = true) :
    (sphinxCmd env versions ver doc_dir work_dir)[1]? =
      some ("-Dbreathe_projects.format=" ++ abspath env.cwd (pathJoin doc_dir "doxyxml")) ∧
    isabs (abspath env.cwd (pathJoin doc_dir "doxyxml")) = true :=
  ⟨rfl, isabs_abspath _ _ h⟩

/-- Witness for C10: with working directory `/cwd` and the relative
override `rel/doc`, the renderer receives
`-Dbreathe_projects.format=/cwd/rel/doc/doxyxml`, an absolute path. -/
theorem breathe_source_always_absolute_witness :
    ((sphinxCmd ⟨"/cwd", "rel/doc", 0, 0, .ran 0⟩ ["0.1.0"] "dev" "rel/doc" ".")[1]? =
      some ("-Dbreathe_projects.format=" ++ abspath "/cwd" (pathJoin "rel/doc" "doxyxml")) ∧
     isabs (abspath "/cwd" (pathJoin "rel/doc" "doxyxml")) = true) ∧
    abspath "/cwd" (pathJoin "rel/doc" "doxyxml") = "/cwd/rel/doc/doxyxml" :=
  ⟨breathe_source_always_absolute ⟨"/cwd", "rel/doc", 0, 0, .ran 0⟩ ["0.1.0"]
      "dev" "rel/doc" "." (by decide),
    by decide⟩

end BuildPy
